import Mathlib

/-!
Shallow embedding of the Mycroft camera skill (`src/__init__.py`).

The skill is a thin adapter over three external facilities: the host GUI
bridge, a native CEC binding (`self.remote`), and the host message bus.
We model each external call as an `Env` field returning `Except Err α`
(a raised Python exception becomes `.error e`), and each handler as a
function `Env → SkillState → … → M SkillState`, where `M` is a
writer-plus-error monad recording the trace of external calls issued.
Python attribute reads of possibly-unset attributes (`self.display`,
`self.display_id`, `self.display_status`) are modelled as `Option`
fields read through `readAttr`, which raises an attribute error when the
field is unset, exactly as CPython does.
-/

namespace CameraSkill

/-- Errors: a Python `AttributeError` on an unset attribute, or an
exception raised by an external (CEC / GUI) callee. -/
inductive Err where
  | attributeError (attr : String)
  | ext (msg : String)
deriving DecidableEq, Repr

/-- The `idle` argument: Python `True` (indefinite view) or a number of
seconds (timed view).  `idle = 60 if message.data.get("view.short", False)
else True`. -/
inductive Idle where
  | indefinite
  | timed (n : Int)
deriving DecidableEq, Repr

/-- External calls issued by the skill, in program order. -/
inductive Event where
  | speak (dialog : String) (data : List (String × String))
  | guiRegisterHandler (name : String)
  | busOn (msgType : String)
  | registerVocabulary (word : String) (kind : String)
  | cecCreate
  | cecDetectAdapters
  | cecOpen (port : String)
  | cecGetActiveDevices
  | cecGetDeviceVendorId (x : Nat)
  | cecGetDeviceCecVersion (x : Nat)
  | cecGetDevicePowerStatus (x : Nat)
  | cecLogicalAddressToString (x : Nat)
  | cecGetDevicePhysicalAddress (x : Nat)
  | cecIsActiveSource (x : Nat)
  | cecVendorIdToString (v : Nat)
  | cecCecVersionToString (v : Nat)
  | cecGetDeviceOSDName (x : Nat)
  | cecPowerStatusToString (c : Nat)
  | cecSetActiveSource (deviceType : Nat)
  | cecStandbyDevices (x : Nat)
  | guiSet (key : String) (val : String)
  | guiShowPage (page : String) (overrideIdle : Bool) (overrideAnimations : Bool)
  | guiShowUrl (url : Option String) (overrideIdle : Idle)
  | guiRemovePage (page : String)
  | guiRelease
  | sleepFor (secs : Int)
deriving DecidableEq, Repr

/-- Result of running a handler: the trace of external calls issued
before returning or raising, and either the resulting value or the
propagated error. -/
structure M (α : Type) where
  trace : List Event
  res : Except Err α
deriving Repr

def M.bind {α β : Type} (m : M α) (f : α → M β) : M β :=
  match m.res with
  | .error e => ⟨m.trace, .error e⟩
  | .ok a => ⟨m.trace ++ (f a).trace, (f a).res⟩

instance : Monad M where
  pure a := ⟨[], .ok a⟩
  bind := M.bind

/-- Record an external call: the event is issued, then the callee either
returns a value or raises. -/
def extCall {α : Type} (ev : Event) (r : Except Err α) : M α := ⟨[ev], r⟩

/-- Log-only side effects (speaking, registrations): issue the event. -/
def tell (ev : Event) : M Unit := ⟨[ev], .ok ()⟩

/-- Read a Python instance attribute that may not have been assigned yet:
`none` raises `AttributeError`. -/
def readAttr {α : Type} (o : Option α) (attr : String) : M α :=
  match o with
  | none => ⟨[], .error (.attributeError attr)⟩
  | some a => ⟨[], .ok a⟩

/-- The external world: each field models one method of the native CEC
binding (`self.remote`) or of the host GUI bridge (`self.gui`); a call
that raises returns `.error`.  Field names follow the source methods. -/
structure Env where
  Create : Except Err Unit
  DetectAdapters : Except Err (List String)
  Open : String → Except Err Bool
  GetActiveDevices : Except Err (Nat → Bool)
  GetDeviceVendorId : Nat → Except Err Nat
  GetDeviceCecVersion : Nat → Except Err Nat
  GetDevicePowerStatus : Nat → Except Err Nat
  LogicalAddressToString : Nat → Except Err String
  GetDevicePhysicalAddress : Nat → Except Err Nat
  IsActiveSource : Nat → Except Err Bool
  VendorIdToString : Nat → Except Err String
  CecVersionToString : Nat → Except Err String
  GetDeviceOSDName : Nat → Except Err String
  PowerStatusToString : Nat → Except Err String
  SetActiveSource : Nat → Except Err Bool
  StandbyDevices : Nat → Except Err Bool
  show_page : String → Bool → Bool → Except Err Unit
  show_url : Option String → Idle → Except Err Unit
  remove_page : String → Except Err Unit
  release : Except Err Unit

/-- `cec.CEC_DEVICE_TYPE_RESERVED` (libcec device-type enum). -/
def CEC_DEVICE_TYPE_RESERVED : Nat := 2

/-- Instance state of `CameraSkill`.  `Option` marks attributes that may
not have been assigned yet (reading them then raises `AttributeError`):
`display` is assigned only by `setup_cec`, `display_id` only by
`setup_cec`'s success branch, `display_status` only by `show_stream`. -/
structure SkillState where
  camera_mode : Option String
  cams : List (String × String)
  save_folder : String
  display : Option Bool
  display_id : Option Nat
  display_status : Option String
deriving DecidableEq, Repr

/-- State right after `__init__`: `camera_mode = None`, `cams` from host
configuration, the three CEC/display attributes unset. -/
def initState (cams : List (String × String)) (save_folder : String) : SkillState :=
  { camera_mode := none, cams := cams, save_folder := save_folder,
    display := none, display_id := none, display_status := none }

/-- `self.cams.get(name, None)` on the configured mapping. -/
def camsGet (cams : List (String × String)) (name : String) : Option String :=
  (cams.find? (fun p => p.1 == name)).map (fun p => p.2)

/-- Python truthiness of an optional string: `None` and `""` are falsy. -/
def truthy (o : Option String) : Bool :=
  match o with
  | none => false
  | some s => !s.isEmpty

/-- An incoming message: the adapt `location` slot, the presence of the
`view.short` keyword, and the raw `utterance` (used by the bus handler). -/
structure Message where
  location : Option String
  viewShort : Bool
  utterance : Option String
deriving DecidableEq, Repr

/-- `handle_camera_completed` (also the `CompleteCam` intent handler and
the body of `stop`): removes `Camera.qml`, releases the GUI, reads
`self.display_status`, and issues `StandbyDevices(self.display_id)` when
the recorded status is `"standby"`. -/
def handle_camera_completed (env : Env) (s : SkillState) : M SkillState := do
  let _ ← extCall (.guiRemovePage "Camera.qml") (env.remove_page "Camera.qml")
  let _ ← extCall .guiRelease env.release
  let st ← readAttr s.display_status "display_status"
  if st = "standby" then do
    let i ← readAttr s.display_id "display_id"
    let _ ← extCall (.cecStandbyDevices i) (env.StandbyDevices i)
    pure s
  else
    pure s

/-- `show_stream`: records the display's power status, makes this device
the active source, and on success shows the URL; for a timed view it then
sleeps `idle - 2` seconds and closes the view. -/
def show_stream (env : Env) (s : SkillState) (cam_url : Option String)
    (idle : Idle) : M SkillState := do
  let i ← readAttr s.display_id "display_id"
  let code ← extCall (.cecGetDevicePowerStatus i) (env.GetDevicePowerStatus i)
  let st ← extCall (.cecPowerStatusToString code) (env.PowerStatusToString code)
  let s := { s with display_status := some st }
  let ok ← extCall (.cecSetActiveSource CEC_DEVICE_TYPE_RESERVED)
      (env.SetActiveSource CEC_DEVICE_TYPE_RESERVED)
  let _ ← if ok then
      extCall (.guiShowUrl cam_url idle) (env.show_url cam_url idle)
    else
      pure ()
  match idle with
  | .indefinite => pure s
  | .timed n => do
      tell (.sleepFor (n - 2))
      handle_camera_completed env s

/-- `handle_get_stream` (the `StreamCam` intent handler). -/
def handle_get_stream (env : Env) (s : SkillState) (msg : Message) :
    M SkillState := do
  let d ← readAttr s.display "display"
  if d then
    let cam_name := msg.location
    let idle := if msg.viewShort then Idle.timed 60 else Idle.indefinite
    if truthy cam_name then
      let cam_url := camsGet s.cams (cam_name.getD "")
      if truthy cam_url then
        show_stream env s cam_url idle
      else do
        tell (.speak "stream.no_config" [("cam", cam_name.getD "")])
        pure s
    else do
      tell (.speak "stream.not_specified" [])
      pure s
  else do
    tell (.speak "display.not.available" [])
    pure s

/-- `handle_stream` (handler of the `skill.camera.showcam` bus event):
looks the utterance up in `self.cams` and shows the stream; `idle`
defaults to `60`. -/
def handle_stream (env : Env) (s : SkillState) (msg : Message)
    (idle : Idle := .timed 60) : M SkillState := do
  let cam_url := msg.utterance.bind (camsGet s.cams)
  show_stream env s cam_url idle

/-- `stop` (system stop command): delegates to `handle_camera_completed`. -/
def stop (env : Env) (s : SkillState) : M SkillState :=
  handle_camera_completed env s

/-- `handle_camera_activity`: sets GUI data and shows `Camera.qml`. -/
def handle_camera_activity (env : Env) (s : SkillState) (activity : String) :
    M SkillState := do
  tell (.guiSet "save_path" s.save_folder)
  let _ ← if activity = "singleshot" then tell (.guiSet "singleshot_mode" "true")
    else pure ()
  let _ ← if activity = "generic" then tell (.guiSet "singleshot_mode" "false")
    else pure ()
  let _ ← extCall (.guiShowPage "Camera.qml" true true)
      (env.show_page "Camera.qml" true true)
  pure s

/-- `take_single_photo` (skill API method). -/
def take_single_photo (env : Env) (s : SkillState) : M SkillState :=
  handle_camera_activity env s "singleshot"

/-- `open_camera_app` (skill API method). -/
def open_camera_app (env : Env) (s : SkillState) : M SkillState :=
  handle_camera_activity env s "generic"

/-- `handle_capture_single_shot` (`CaptureSingleShot` intent handler). -/
def handle_capture_single_shot (env : Env) (s : SkillState) : M SkillState := do
  tell (.speak "acknowledge" [])
  tell (.guiSet "singleshot_mode" "false")
  take_single_photo env s

/-- `handle_open_camera` (`OpenCamera` intent handler). -/
def handle_open_camera (env : Env) (s : SkillState) : M SkillState := do
  tell (.speak "acknowledge" [])
  tell (.guiSet "singleshot_mode" "false")
  handle_camera_activity env s "generic"

/-- `handle_camera_status` (GUI `CameraSkill.ViewPortStatus` handler). -/
def handle_camera_status (s : SkillState) (status : Option String) :
    M SkillState := do
  let _ ← if status = some "generic" then tell (.guiSet "singleshot_mode" "false")
    else pure ()
  let _ ← if status = some "imagetaken" then tell (.guiSet "singleshot_mode" "false")
    else pure ()
  let _ ← if status = some "singleshot" then tell (.guiSet "singleshot_mode" "true")
    else pure ()
  pure s

/-- The per-device debug enumeration inside `setup_cec`'s success branch
(all results are only logged). -/
def probeDevice (env : Env) (x : Nat) : M Unit := do
  let v ← extCall (.cecGetDeviceVendorId x) (env.GetDeviceVendorId x)
  let c ← extCall (.cecGetDeviceCecVersion x) (env.GetDeviceCecVersion x)
  let p ← extCall (.cecGetDevicePowerStatus x) (env.GetDevicePowerStatus x)
  let _ ← extCall (.cecLogicalAddressToString x) (env.LogicalAddressToString x)
  let _ ← extCall (.cecGetDevicePhysicalAddress x) (env.GetDevicePhysicalAddress x)
  let _ ← extCall (.cecIsActiveSource x) (env.IsActiveSource x)
  let _ ← extCall (.cecVendorIdToString v) (env.VendorIdToString v)
  let _ ← extCall (.cecCecVersionToString c) (env.CecVersionToString c)
  let _ ← extCall (.cecGetDeviceOSDName x) (env.GetDeviceOSDName x)
  let _ ← extCall (.cecPowerStatusToString p) (env.PowerStatusToString p)
  pure ()

def probeLoop (env : Env) (isSet : Nat → Bool) : List Nat → M Unit
  | [] => pure ()
  | x :: xs => do
      let _ ← if isSet x then probeDevice env x else pure ()
      probeLoop env isSet xs

/-- `setup_cec`: creates the adapter, detects ports; with no adapter it
speaks the fallback and marks the display unavailable, otherwise it marks
it available, opens the first port, enumerates active devices for the
log, and records the TV's logical address `0` as `display_id`. -/
def setup_cec (env : Env) (s : SkillState) : M SkillState := do
  let _ ← extCall .cecCreate env.Create
  let adapters ← extCall .cecDetectAdapters env.DetectAdapters
  match adapters with
  | [] => do
      tell (.speak "display.not.available" [])
      pure { s with display := some false }
  | a :: _ => do
      let s := { s with display := some true }
      let _ ← extCall (.cecOpen a) (env.Open a)
      let isSet ← extCall .cecGetActiveDevices env.GetActiveDevices
      probeLoop env isSet (List.range 16)
      pure { s with display_id := some 0 }

/-- The `register_vocabulary` loop of the skill's startup: one
registration per configured camera name. -/
def registerCams : List (String × String) → M Unit
  | [] => pure ()
  | (w, _) :: rest => do
      tell (.registerVocabulary w "location")
      registerCams rest

/-- The skill's startup hook (named `init_skill` here): registers the
two GUI handlers, subscribes to the `skill.camera.showcam` bus event,
registers each configured camera name as `location` vocabulary, and runs
`setup_cec`. -/
def init_skill (env : Env) (s : SkillState) : M SkillState := do
  tell (.guiRegisterHandler "CameraSkill.ViewPortStatus")
  tell (.guiRegisterHandler "CameraSkill.EndProcess")
  tell (.busOn "skill.camera.showcam")
  registerCams s.cams
  setup_cec env s

/-! ### Concrete test fixtures -/

/-- An environment in which every external call succeeds: one adapter,
TV power status code `1` rendered `"on"`, `SetActiveSource` succeeds. -/
def okEnv : Env where
  Create := .ok ()
  DetectAdapters := .ok ["RPI"]
  Open := fun _ => .ok true
  GetActiveDevices := .ok (fun _ => false)
  GetDeviceVendorId := fun _ => .ok 0
  GetDeviceCecVersion := fun _ => .ok 0
  GetDevicePowerStatus := fun _ => .ok 1
  LogicalAddressToString := fun _ => .ok "TV"
  GetDevicePhysicalAddress := fun _ => .ok 0
  IsActiveSource := fun _ => .ok false
  VendorIdToString := fun _ => .ok "vendor"
  CecVersionToString := fun _ => .ok "1.4"
  GetDeviceOSDName := fun _ => .ok "TV"
  PowerStatusToString := fun _ => .ok "on"
  SetActiveSource := fun _ => .ok true
  StandbyDevices := fun _ => .ok true
  show_page := fun _ _ _ => .ok ()
  show_url := fun _ _ => .ok ()
  remove_page := fun _ => .ok ()
  release := .ok ()

/-- A state as left by a successful `setup_cec`: one configured camera,
display available, TV logical address recorded, no stream shown yet. -/
def sReady : SkillState :=
  { camera_mode := none, cams := [("porch", "rtsp://cam.local/porch")],
    save_folder := "/home/user/Pictures",
    display := some true, display_id := some 0, display_status := none }

/-- The state `sReady` after a stream has been shown with the TV on. -/
def sShown : SkillState := { sReady with display_status := some "on" }

/-- State right after `__init__` with one configured camera. -/
def sFresh : SkillState :=
  initState [("porch", "rtsp://cam.local/porch")] "/home/user/Pictures"

/-- `sFresh` after a successful `setup_cec` against `okEnv`. -/
def sDetected : SkillState :=
  { sFresh with display := some true, display_id := some 0 }

/-- An intent message asking for the `porch` camera with `view.short`. -/
def msgPorchShort : Message :=
  { location := some "porch", viewShort := true, utterance := some "porch" }

/-- An environment whose `DetectAdapters` finds nothing. -/
def noAdapterEnv : Env := { okEnv with DetectAdapters := .ok [] }

/-- `sReady` with the display marked unavailable. -/
def sOff : SkillState := { sReady with display := some false }

/-- `sReady` with a recorded `"standby"` power status. -/
def sStandby : SkillState := { sReady with display_status := some "standby" }

/-- A stream request with no `location` slot. -/
def msgNone : Message := { location := none, viewShort := false, utterance := none }

/-- A stream request for a camera that has no configured URL. -/
def msgGarage : Message :=
  { location := some "garage", viewShort := false, utterance := some "garage" }

/-- Events that are spoken dialogs. -/
def isSpeak : Event → Bool
  | .speak _ _ => true
  | _ => false

/-- Events that auto-close a view: the blocking sleep and the page
removal.  An indefinite view must issue neither. -/
def isAutoClose : Event → Bool
  | .sleepFor _ => true
  | .guiRemovePage _ => true
  | _ => false

/-- A generic raised exception for the error-propagation claims. -/
def errE : Err := .ext "boom"

def envPowerErr : Env :=
  { okEnv with GetDevicePowerStatus := fun _ => .error errE }

def envActiveErr : Env :=
  { okEnv with SetActiveSource := fun _ => .error errE }

def envShowUrlErr : Env :=
  { okEnv with show_url := fun _ _ => .error errE }

def envRemoveErr : Env :=
  { okEnv with remove_page := fun _ => .error errE }

def envStandbyErr : Env :=
  { okEnv with StandbyDevices := fun _ => .error errE }

def envOpenErr : Env :=
  { okEnv with Open := fun _ => .error errE }

example : handle_get_stream okEnv sReady ⟨none, false, none⟩ =
    ⟨[.speak "stream.not_specified" []], .ok sReady⟩ := rfl

example : handle_stream okEnv { sReady with display_status := some "on" }
    ⟨none, false, some "porch"⟩ =
    ⟨[.cecGetDevicePowerStatus 0, .cecPowerStatusToString 1,
      .cecSetActiveSource 2,
      .guiShowUrl (some "rtsp://cam.local/porch") (.timed 60),
      .sleepFor 58, .guiRemovePage "Camera.qml", .guiRelease],
     .ok { sReady with display_status := some "on" }⟩ := rfl

example : (handle_camera_completed okEnv sReady).res =
    .error (.attributeError "display_status") := rfl

/-! ### Generic lemmas about `M` -/

@[simp] theorem run_bind {α β : Type} (m : M α) (f : α → M β) :
    m >>= f = M.bind m f := rfl

@[simp] theorem run_pure {α : Type} (a : α) :
    (pure a : M α) = ⟨[], .ok a⟩ := rfl

@[simp] theorem bind_ok {α β : Type} (t : List Event) (a : α) (f : α → M β) :
    M.bind ⟨t, .ok a⟩ f = ⟨t ++ (f a).trace, (f a).res⟩ := rfl

@[simp] theorem bind_error {α β : Type} (t : List Event) (e : Err) (f : α → M β) :
    M.bind ⟨t, .error e⟩ f = ⟨t, .error e⟩ := rfl

@[simp] theorem extCall_ok {α : Type} (ev : Event) (a : α) :
    extCall ev (.ok a) = ⟨[ev], .ok a⟩ := rfl

@[simp] theorem extCall_error {α : Type} (ev : Event) (e : Err) :
    extCall ev (.error e : Except Err α) = ⟨[ev], .error e⟩ := rfl

@[simp] theorem readAttr_some {α : Type} (a : α) (attr : String) :
    readAttr (some a) attr = ⟨[], .ok a⟩ := rfl

@[simp] theorem readAttr_none {α : Type} (attr : String) :
    readAttr (none : Option α) attr = ⟨[], .error (.attributeError attr)⟩ := rfl


/-- A boolean event predicate holds on the trace of a bind when it holds
on both operands' traces. -/
theorem all_bind {α β : Type} {p : Event → Bool} {m : M α} {f : α → M β}
    (hm : m.trace.all p = true) (hf : ∀ a, ((f a).trace.all p) = true) :
    ((M.bind m f).trace.all p) = true := by
  rcases m with ⟨t, r⟩
  have hm' : t.all p = true := hm
  cases r with
  | error e => exact hm'
  | ok a =>
      show ((t ++ (f a).trace).all p) = true
      rw [List.all_append, hm', hf a]
      rfl

/-- A boolean event predicate holds on an `extCall` trace when it holds
on the call's event. -/
theorem all_extCall {α : Type} (p : Event → Bool) (ev : Event)
    (r : Except Err α) (h : p ev = true) :
    ((extCall ev r).trace.all p) = true := by
  simp [extCall, h]

@[simp] theorem tell_trace (ev : Event) : (tell ev).trace = [ev] := rfl

@[simp] theorem tell_res (ev : Event) : (tell ev).res = .ok () := rfl

/-- `registerCams` always succeeds. -/
theorem registerCams_res (l : List (String × String)) :
    (registerCams l).res = .ok () := by
  induction l with
  | nil => rfl
  | cons hd tl ih =>
      rcases hd with ⟨w, u⟩
      simp [registerCams, M.bind, ih]

/-- `probeDevice` never speaks. -/
theorem probeDevice_noSpeak (env : Env) (x : Nat) :
    ((probeDevice env x).trace.all fun e => !isSpeak e) = true := by
  unfold probeDevice
  simp only [run_bind, run_pure]
  apply all_bind (all_extCall _ _ _ rfl); intro v
  apply all_bind (all_extCall _ _ _ rfl); intro c
  apply all_bind (all_extCall _ _ _ rfl); intro p
  apply all_bind (all_extCall _ _ _ rfl); intro _
  apply all_bind (all_extCall _ _ _ rfl); intro _
  apply all_bind (all_extCall _ _ _ rfl); intro _
  apply all_bind (all_extCall _ _ _ rfl); intro _
  apply all_bind (all_extCall _ _ _ rfl); intro _
  apply all_bind (all_extCall _ _ _ rfl); intro _
  apply all_bind (all_extCall _ _ _ rfl); intro _
  rfl

/-- `handle_camera_completed` never speaks. -/
theorem handle_camera_completed_noSpeak (env : Env) (s : SkillState) :
    ((handle_camera_completed env s).trace.all fun e => !isSpeak e) = true := by
  unfold handle_camera_completed
  simp only [run_bind, run_pure]
  apply all_bind (by simp [extCall, isSpeak])
  intro _
  apply all_bind (by simp [extCall, isSpeak])
  intro _
  apply all_bind (p := fun e => !isSpeak e)
      (by cases s.display_status <;> simp [readAttr, isSpeak])
  intro st
  by_cases hst : st = "standby" <;> simp only [hst, if_true, if_false]
  · apply all_bind (p := fun e => !isSpeak e)
        (by cases s.display_id <;> simp [readAttr, isSpeak])
    intro i
    apply all_bind (by simp [extCall, isSpeak])
    intro _
    simp [isSpeak]
  · simp [hst, isSpeak]

/-- `show_stream` never speaks. -/
theorem show_stream_noSpeak (env : Env) (s : SkillState)
    (u : Option String) (idle : Idle) :
    ((show_stream env s u idle).trace.all fun e => !isSpeak e) = true := by
  unfold show_stream
  simp only [run_bind, run_pure]
  apply all_bind (p := fun e => !isSpeak e)
      (by cases s.display_id <;> simp [readAttr, isSpeak])
  intro i
  apply all_bind (by simp [extCall, isSpeak])
  intro code
  apply all_bind (by simp [extCall, isSpeak])
  intro st
  apply all_bind (by simp [extCall, isSpeak])
  intro ok
  cases ok with
  | false =>
      simp only [Bool.false_eq_true, if_false]
      refine all_bind ?_ fun _ => ?_
      · rfl
      · cases idle with
        | indefinite => rfl
        | timed n =>
            refine all_bind ?_ fun _ => ?_
            · rfl
            · exact handle_camera_completed_noSpeak env _
  | true =>
      simp only [if_true]
      apply all_bind (all_extCall _ _ _ rfl)
      intro _
      cases idle with
      | indefinite => rfl
      | timed n =>
          refine all_bind ?_ fun _ => ?_
          · rfl
          · exact handle_camera_completed_noSpeak env _

/-- An indefinite view never sleeps and never removes the page: no
auto-close event appears in its trace, whatever the environment does. -/
theorem show_stream_indefinite_noAutoClose (env : Env) (s : SkillState)
    (u : Option String) :
    ((show_stream env s u .indefinite).trace.all fun e => !isAutoClose e)
      = true := by
  unfold show_stream
  simp only [run_bind, run_pure]
  apply all_bind (p := fun e => !isAutoClose e)
      (by cases s.display_id <;> simp [readAttr, isAutoClose])
  intro i
  apply all_bind (all_extCall _ _ _ rfl)
  intro code
  apply all_bind (all_extCall _ _ _ rfl)
  intro st
  apply all_bind (all_extCall _ _ _ rfl)
  intro ok
  cases ok with
  | false =>
      simp only [Bool.false_eq_true, if_false]
      refine all_bind ?_ fun _ => ?_
      · rfl
      · rfl
  | true =>
      simp only [if_true]
      apply all_bind (all_extCall _ _ _ rfl)
      intro _
      rfl

/-! ### The camera mapping is never written after construction -/

theorem cams_handle_camera_completed (env : Env) (s : SkillState) :
    ∀ s', (handle_camera_completed env s).res = .ok s' → s'.cams = s.cams := by
  intro s' h
  simp only [handle_camera_completed, run_bind, run_pure, M.bind, extCall,
    tell, readAttr] at h
  repeat' split at h
  all_goals first
    | (simp at h; subst h; rfl)
    | simp at h

theorem cams_show_stream (env : Env) (s : SkillState) (u : Option String)
    (idle : Idle) :
    ∀ s', (show_stream env s u idle).res = .ok s' → s'.cams = s.cams := by
  intro s' h
  simp only [show_stream, handle_camera_completed, run_bind, run_pure, M.bind,
    extCall, tell, readAttr] at h
  repeat' split at h
  all_goals first
    | (simp at h; subst h; rfl)
    | simp at h

theorem cams_handle_get_stream (env : Env) (s : SkillState) (msg : Message) :
    ∀ s', (handle_get_stream env s msg).res = .ok s' → s'.cams = s.cams := by
  intro s' h
  simp only [handle_get_stream, show_stream, handle_camera_completed, run_bind,
    run_pure, M.bind, extCall, tell, readAttr] at h
  repeat' split at h
  all_goals first
    | (simp at h; subst h; rfl)
    | simp at h

theorem cams_handle_stream (env : Env) (s : SkillState) (msg : Message)
    (idle : Idle) :
    ∀ s', (handle_stream env s msg idle).res = .ok s' → s'.cams = s.cams := by
  intro s' h
  simp only [handle_stream, show_stream, handle_camera_completed, run_bind,
    run_pure, M.bind, extCall, tell, readAttr] at h
  repeat' split at h
  all_goals first
    | (simp at h; subst h; rfl)
    | simp at h

theorem cams_stop (env : Env) (s : SkillState) :
    ∀ s', (stop env s).res = .ok s' → s'.cams = s.cams :=
  cams_handle_camera_completed env s

theorem cams_handle_camera_activity (env : Env) (s : SkillState)
    (activity : String) :
    ∀ s', (handle_camera_activity env s activity).res = .ok s' →
      s'.cams = s.cams := by
  intro s' h
  simp only [handle_camera_activity, run_bind, run_pure, M.bind, extCall,
    tell] at h
  repeat' split at h
  all_goals first
    | (simp at h; subst h; rfl)
    | simp at h

theorem cams_take_single_photo (env : Env) (s : SkillState) :
    ∀ s', (take_single_photo env s).res = .ok s' → s'.cams = s.cams := by
  unfold take_single_photo
  exact cams_handle_camera_activity env s _

theorem cams_open_camera_app (env : Env) (s : SkillState) :
    ∀ s', (open_camera_app env s).res = .ok s' → s'.cams = s.cams := by
  unfold open_camera_app
  exact cams_handle_camera_activity env s _

theorem cams_handle_capture_single_shot (env : Env) (s : SkillState) :
    ∀ s', (handle_capture_single_shot env s).res = .ok s' →
      s'.cams = s.cams := by
  intro s' h
  simp only [handle_capture_single_shot, take_single_photo,
    handle_camera_activity, run_bind, run_pure, M.bind, extCall, tell] at h
  repeat' split at h
  all_goals first
    | (simp at h; subst h; rfl)
    | simp at h

theorem cams_handle_open_camera (env : Env) (s : SkillState) :
    ∀ s', (handle_open_camera env s).res = .ok s' → s'.cams = s.cams := by
  intro s' h
  simp only [handle_open_camera, handle_camera_activity, run_bind, run_pure,
    M.bind, extCall, tell] at h
  repeat' split at h
  all_goals first
    | (simp at h; subst h; rfl)
    | simp at h

theorem cams_handle_camera_status (s : SkillState) (status : Option String) :
    ∀ s', (handle_camera_status s status).res = .ok s' → s'.cams = s.cams := by
  intro s' h
  simp only [handle_camera_status, run_bind, run_pure, M.bind, tell] at h
  repeat' split at h
  all_goals (simp at h; subst h; rfl)

theorem cams_setup_cec (env : Env) (s : SkillState) :
    ∀ s', (setup_cec env s).res = .ok s' → s'.cams = s.cams := by
  intro s' h
  simp only [setup_cec, run_bind, run_pure, M.bind, extCall, tell] at h
  repeat' split at h
  all_goals first
    | (simp at h; subst h; rfl)
    | simp at h

theorem cams_init_skill (env : Env) (s : SkillState) :
    ∀ s', (init_skill env s).res = .ok s' → s'.cams = s.cams := by
  intro s' h
  simp only [init_skill, setup_cec, run_bind, run_pure, M.bind, extCall,
    tell] at h
  repeat' split at h
  all_goals first
    | (simp at h; subst h; rfl)
    | simp at h

/-! ### Claims -/

/-- C2: the camera name-to-URL mapping `self.cams` is read-only at
runtime: every operation of the skill after construction — the startup
hook, `setup_cec`, every intent handler, the GUI status handler, the
skill API methods, the bus handler, `show_stream`,
`handle_camera_completed` and `stop` — only reads the mapping, so any
state such an operation returns carries the mapping unchanged. -/
theorem claim_C2_cams_readonly :
    (∀ env s s', (init_skill env s).res = .ok s' → s'.cams = s.cams) ∧
    (∀ env s s', (setup_cec env s).res = .ok s' → s'.cams = s.cams) ∧
    (∀ env s s', (handle_capture_single_shot env s).res = .ok s' →
      s'.cams = s.cams) ∧
    (∀ env s s', (handle_open_camera env s).res = .ok s' →
      s'.cams = s.cams) ∧
    (∀ env s s', (handle_camera_completed env s).res = .ok s' →
      s'.cams = s.cams) ∧
    (∀ s status s', (handle_camera_status s status).res = .ok s' →
      s'.cams = s.cams) ∧
    (∀ env s s', (take_single_photo env s).res = .ok s' →
      s'.cams = s.cams) ∧
    (∀ env s s', (open_camera_app env s).res = .ok s' →
      s'.cams = s.cams) ∧
    (∀ env s msg s', (handle_get_stream env s msg).res = .ok s' →
      s'.cams = s.cams) ∧
    (∀ env s msg idle s', (handle_stream env s msg idle).res = .ok s' →
      s'.cams = s.cams) ∧
    (∀ env s u idle s', (show_stream env s u idle).res = .ok s' →
      s'.cams = s.cams) ∧
    (∀ env s s', (stop env s).res = .ok s' → s'.cams = s.cams) :=
  ⟨fun env s => cams_init_skill env s,
   fun env s => cams_setup_cec env s,
   fun env s => cams_handle_capture_single_shot env s,
   fun env s => cams_handle_open_camera env s,
   fun env s => cams_handle_camera_completed env s,
   fun s status => cams_handle_camera_status s status,
   fun env s => cams_take_single_photo env s,
   fun env s => cams_open_camera_app env s,
   fun env s msg => cams_handle_get_stream env s msg,
   fun env s msg idle => cams_handle_stream env s msg idle,
   fun env s u idle => cams_show_stream env s u idle,
   fun env s => cams_stop env s⟩

/-- Witness for C2: each conjunct applied to a concrete successful run. -/
theorem claim_C2_cams_readonly_witness :
    sDetected.cams = sFresh.cams ∧
    sDetected.cams = sFresh.cams ∧
    sReady.cams = sReady.cams ∧
    sReady.cams = sReady.cams ∧
    sShown.cams = sShown.cams ∧
    sReady.cams = sReady.cams ∧
    sReady.cams = sReady.cams ∧
    sReady.cams = sReady.cams ∧
    sShown.cams = sReady.cams ∧
    sShown.cams = sReady.cams ∧
    sShown.cams = sReady.cams ∧
    sShown.cams = sShown.cams :=
  ⟨claim_C2_cams_readonly.1 okEnv sFresh sDetected rfl,
   claim_C2_cams_readonly.2.1 okEnv sFresh sDetected rfl,
   claim_C2_cams_readonly.2.2.1 okEnv sReady sReady rfl,
   claim_C2_cams_readonly.2.2.2.1 okEnv sReady sReady rfl,
   claim_C2_cams_readonly.2.2.2.2.1 okEnv sShown sShown rfl,
   claim_C2_cams_readonly.2.2.2.2.2.1 sReady (some "generic") sReady rfl,
   claim_C2_cams_readonly.2.2.2.2.2.2.1 okEnv sReady sReady rfl,
   claim_C2_cams_readonly.2.2.2.2.2.2.2.1 okEnv sReady sReady rfl,
   claim_C2_cams_readonly.2.2.2.2.2.2.2.2.1 okEnv sReady msgPorchShort
     sShown rfl,
   claim_C2_cams_readonly.2.2.2.2.2.2.2.2.2.1 okEnv sReady msgPorchShort
     (.timed 60) sShown rfl,
   claim_C2_cams_readonly.2.2.2.2.2.2.2.2.2.2.1 okEnv sReady
     (some "rtsp://cam.local/porch") .indefinite sShown rfl,
   claim_C2_cams_readonly.2.2.2.2.2.2.2.2.2.2.2 okEnv sShown sShown rfl⟩

/-- C3: when adapter detection returns an empty list, `setup_cec` speaks
`display.not.available` and records `display = False`; and every later
stream request through `handle_get_stream` while the flag is `False`
only speaks `display.not.available` — its whole trace is that single
dialog, so no GUI or CEC call is made — and leaves the state unchanged. -/
theorem claim_C3_no_adapter_guard :
    (∀ env s, env.Create = .ok () → env.DetectAdapters = .ok [] →
      setup_cec env s =
        ⟨[.cecCreate, .cecDetectAdapters, .speak "display.not.available" []],
         .ok { s with display := some false }⟩) ∧
    (∀ env s msg, s.display = some false →
      handle_get_stream env s msg =
        ⟨[.speak "display.not.available" []], .ok s⟩) := by
  constructor
  · intro env s h1 h2
    simp [setup_cec, run_bind, run_pure, M.bind, extCall, tell, h1, h2]
  · intro env s msg hd
    simp [handle_get_stream, run_bind, run_pure, M.bind, tell, readAttr, hd]

/-- Witness for C3: `noAdapterEnv` detects nothing, then a request in the
resulting display-unavailable state only speaks the fallback. -/
theorem claim_C3_no_adapter_guard_witness :
    setup_cec noAdapterEnv sFresh =
      ⟨[.cecCreate, .cecDetectAdapters, .speak "display.not.available" []],
       .ok { sFresh with display := some false }⟩ ∧
    handle_get_stream noAdapterEnv { sFresh with display := some false }
        msgPorchShort =
      ⟨[.speak "display.not.available" []],
       .ok { sFresh with display := some false }⟩ :=
  ⟨claim_C3_no_adapter_guard.1 noAdapterEnv sFresh rfl rfl,
   claim_C3_no_adapter_guard.2 noAdapterEnv _ msgPorchShort rfl⟩

/-- C4: a stream request naming a camera with no configured URL, while
the display is available, only speaks `stream.no_config` with that
camera name and returns the state unchanged — the trace is that single
dialog, so no stream is shown and no GUI or CEC call is issued. -/
theorem claim_C4_no_config_guard (env : Env) (s : SkillState) (msg : Message)
    (name : String) (hd : s.display = some true)
    (hl : msg.location = some name) (hn : truthy (some name) = true)
    (hc : camsGet s.cams name = none) :
    handle_get_stream env s msg =
      ⟨[.speak "stream.no_config" [("cam", name)]], .ok s⟩ := by
  have hni : name.isEmpty = false := by simpa [truthy] using hn
  simp [handle_get_stream, run_bind, run_pure, M.bind, tell, readAttr,
    hd, hl, hc, truthy, hni]

/-- Witness for C4: requesting the unconfigured `garage` camera. -/
theorem claim_C4_no_config_guard_witness :
    handle_get_stream okEnv sReady msgGarage =
      ⟨[.speak "stream.no_config" [("cam", "garage")]], .ok sReady⟩ :=
  claim_C4_no_config_guard okEnv sReady msgGarage "garage" rfl rfl rfl rfl

/-- C10: `handle_camera_completed` reads `self.display_status`
unconditionally, an attribute only `show_stream` assigns; invoked before
any stream was shown (via `stop` or the `CompleteCam` intent) it removes
the page and releases the GUI, then raises an `AttributeError` instead
of completing. -/
theorem claim_C10_attribute_error (env : Env) (s : SkillState)
    (hds : s.display_status = none)
    (hrm : env.remove_page "Camera.qml" = .ok ())
    (hrel : env.release = .ok ()) :
    (stop env s).res = .error (.attributeError "display_status") ∧
    (handle_camera_completed env s).res
      = .error (.attributeError "display_status") ∧
    (stop env s).trace = [.guiRemovePage "Camera.qml", .guiRelease] := by
  refine ⟨?_, ?_, ?_⟩ <;>
    simp [stop, handle_camera_completed, run_bind, run_pure, M.bind,
      extCall, readAttr, hds, hrm, hrel]

/-- Witness for C10: stopping right after a successful setup (no stream
ever shown) raises the attribute error. -/
theorem claim_C10_attribute_error_witness :
    (stop okEnv sReady).res = .error (.attributeError "display_status") ∧
    (handle_camera_completed okEnv sReady).res
      = .error (.attributeError "display_status") ∧
    (stop okEnv sReady).trace = [.guiRemovePage "Camera.qml", .guiRelease] :=
  claim_C10_attribute_error okEnv sReady rfl rfl rfl

/-- C1 counterexample: with the display available, a stream request that
names no camera is answered by a third spoken fallback,
`stream.not_specified`, distinct from the two guards the claim allows
(`display.not.available` and `stream.no_config`).  So the handlers do
not guard "exactly two" failure conditions. -/
theorem claim_C1_counterexample :
    (handle_get_stream okEnv sReady msgNone).trace
      = [.speak "stream.not_specified" []] ∧
    "stream.not_specified" ≠ "display.not.available" ∧
    "stream.not_specified" ≠ "stream.no_config" :=
  ⟨rfl, by decide, by decide⟩

/-- C1 amended: `handle_get_stream` guards exactly three failure
conditions — display unavailable, no camera name given, no URL
configured for the given name — each answered by a single spoken
fallback with no other external call; on the remaining (guard-free)
path no dialog at all is spoken. -/
theorem claim_C1_guards :
    (∀ env s msg, s.display = some false →
      handle_get_stream env s msg =
        ⟨[.speak "display.not.available" []], .ok s⟩) ∧
    (∀ env s msg, s.display = some true → truthy msg.location = false →
      handle_get_stream env s msg =
        ⟨[.speak "stream.not_specified" []], .ok s⟩) ∧
    (∀ env s msg name, s.display = some true → msg.location = some name →
      truthy (some name) = true → truthy (camsGet s.cams name) = false →
      handle_get_stream env s msg =
        ⟨[.speak "stream.no_config" [("cam", name)]], .ok s⟩) ∧
    (∀ env s msg name, s.display = some true → msg.location = some name →
      truthy (some name) = true → truthy (camsGet s.cams name) = true →
      ((handle_get_stream env s msg).trace.all fun e => !isSpeak e)
        = true) := by
  refine ⟨?_, ?_, ?_, ?_⟩
  · intro env s msg hd
    simp [handle_get_stream, run_bind, run_pure, M.bind, tell, readAttr, hd]
  · intro env s msg hd hl
    simp [handle_get_stream, run_bind, run_pure, M.bind, tell, readAttr,
      hd, hl]
  · intro env s msg name hd hl hn hc
    simp [handle_get_stream, run_bind, run_pure, M.bind, tell, readAttr,
      hd, hl, hn, hc]
  · intro env s msg name hd hl hn hc
    have hni : name.isEmpty = false := by simpa [truthy] using hn
    simp only [handle_get_stream, run_bind, run_pure, readAttr, hd, hl,
      Option.getD_some, hn, hc, if_true, bind_ok]
    simpa using show_stream_noSpeak env s (camsGet s.cams name)
      (if msg.viewShort then Idle.timed 60 else Idle.indefinite)

/-- Witness for the amended C1: all four branches at concrete inputs. -/
theorem claim_C1_guards_witness :
    handle_get_stream okEnv sOff msgPorchShort =
      ⟨[.speak "display.not.available" []], .ok sOff⟩ ∧
    handle_get_stream okEnv sReady msgNone =
      ⟨[.speak "stream.not_specified" []], .ok sReady⟩ ∧
    handle_get_stream okEnv sReady msgGarage =
      ⟨[.speak "stream.no_config" [("cam", "garage")]], .ok sReady⟩ ∧
    ((handle_get_stream okEnv sReady msgPorchShort).trace.all
      fun e => !isSpeak e) = true :=
  ⟨claim_C1_guards.1 okEnv sOff msgPorchShort rfl,
   claim_C1_guards.2.1 okEnv sReady msgNone rfl rfl,
   claim_C1_guards.2.2.1 okEnv sReady msgGarage "garage" rfl rfl rfl rfl,
   claim_C1_guards.2.2.2 okEnv sReady msgPorchShort "porch" rfl rfl rfl rfl⟩

/-- C5: a timed view (numeric `idle`) blocks in a sleep of `idle - 2`
seconds after showing the stream and then closes the view — the trace
continues with `handle_camera_completed`'s page removal and release;
an indefinite view (`idle is True`) issues no sleep and no page removal
whatever the environment does. -/
theorem claim_C5_timed_sleep_then_close :
    (∀ env s u n i c st, s.display_id = some i →
      env.GetDevicePowerStatus i = .ok c →
      env.PowerStatusToString c = .ok st →
      env.SetActiveSource CEC_DEVICE_TYPE_RESERVED = .ok true →
      env.show_url u (.timed n) = .ok () →
      env.remove_page "Camera.qml" = .ok () → env.release = .ok () →
      st ≠ "standby" →
      show_stream env s u (.timed n) =
        ⟨[.cecGetDevicePowerStatus i, .cecPowerStatusToString c,
          .cecSetActiveSource CEC_DEVICE_TYPE_RESERVED,
          .guiShowUrl u (.timed n), .sleepFor (n - 2),
          .guiRemovePage "Camera.qml", .guiRelease],
         .ok { s with display_status := some st }⟩) ∧
    (∀ env s u i c st, s.display_id = some i →
      env.GetDevicePowerStatus i = .ok c →
      env.PowerStatusToString c = .ok st →
      env.SetActiveSource CEC_DEVICE_TYPE_RESERVED = .ok true →
      env.show_url u .indefinite = .ok () →
      show_stream env s u .indefinite =
        ⟨[.cecGetDevicePowerStatus i, .cecPowerStatusToString c,
          .cecSetActiveSource CEC_DEVICE_TYPE_RESERVED,
          .guiShowUrl u .indefinite],
         .ok { s with display_status := some st }⟩) ∧
    (∀ env s u,
      ((show_stream env s u .indefinite).trace.all fun e => !isAutoClose e)
        = true) := by
  refine ⟨?_, ?_, fun env s u => show_stream_indefinite_noAutoClose env s u⟩
  · intro env s u n i c st hi hp hps ha hu hrm hrel hst
    simp [show_stream, handle_camera_completed, run_bind, run_pure, M.bind,
      extCall, tell, readAttr, hi, hp, hps, ha, hu, hrm, hrel, hst]
  · intro env s u i c st hi hp hps ha hu
    simp [show_stream, run_bind, run_pure, M.bind, extCall, tell, readAttr,
      hi, hp, hps, ha, hu]

/-- Witness for C5: a 60-second view of the porch camera, and the same
view left open indefinitely. -/
theorem claim_C5_timed_sleep_then_close_witness :
    show_stream okEnv sReady (some "rtsp://cam.local/porch") (.timed 60) =
      ⟨[.cecGetDevicePowerStatus 0, .cecPowerStatusToString 1,
        .cecSetActiveSource CEC_DEVICE_TYPE_RESERVED,
        .guiShowUrl (some "rtsp://cam.local/porch") (.timed 60),
        .sleepFor 58, .guiRemovePage "Camera.qml", .guiRelease],
       .ok sShown⟩ ∧
    show_stream okEnv sReady (some "rtsp://cam.local/porch") .indefinite =
      ⟨[.cecGetDevicePowerStatus 0, .cecPowerStatusToString 1,
        .cecSetActiveSource CEC_DEVICE_TYPE_RESERVED,
        .guiShowUrl (some "rtsp://cam.local/porch") .indefinite],
       .ok sShown⟩ :=
  ⟨claim_C5_timed_sleep_then_close.1 okEnv sReady
      (some "rtsp://cam.local/porch") 60 0 1 "on"
      rfl rfl rfl rfl rfl rfl rfl (by decide),
   claim_C5_timed_sleep_then_close.2.1 okEnv sReady
      (some "rtsp://cam.local/porch") 0 1 "on" rfl rfl rfl rfl rfl⟩

/-- C6: the startup hook subscribes to the `skill.camera.showcam` bus
event; its handler looks the message's utterance up in the configured
mapping and shows the stream with the default timed idle of `60`,
issuing `GetDevicePowerStatus` and `SetActiveSource` and — on
`SetActiveSource` succeeding — `show_url` with the camera URL. -/
theorem claim_C6_bus_stream :
    (∀ env s,
      Event.busOn "skill.camera.showcam" ∈ (init_skill env s).trace) ∧
    (∀ env s msg name url i c st, msg.utterance = some name →
      camsGet s.cams name = some url → s.display_id = some i →
      env.GetDevicePowerStatus i = .ok c →
      env.PowerStatusToString c = .ok st →
      env.SetActiveSource CEC_DEVICE_TYPE_RESERVED = .ok true →
      env.show_url (some url) (.timed 60) = .ok () →
      env.remove_page "Camera.qml" = .ok () → env.release = .ok () →
      st ≠ "standby" →
      handle_stream env s msg =
        ⟨[.cecGetDevicePowerStatus i, .cecPowerStatusToString c,
          .cecSetActiveSource CEC_DEVICE_TYPE_RESERVED,
          .guiShowUrl (some url) (.timed 60), .sleepFor 58,
          .guiRemovePage "Camera.qml", .guiRelease],
         .ok { s with display_status := some st }⟩) := by
  constructor
  · intro env s
    simp [init_skill, run_bind, run_pure, M.bind, tell]
  · intro env s msg name url i c st hu hcg hi hp hps ha hsu hrm hrel hst
    simp [handle_stream, show_stream, handle_camera_completed, run_bind,
      run_pure, M.bind, extCall, tell, readAttr, hu, hcg, hi, hp, hps, ha,
      hsu, hrm, hrel, hst]

/-- Witness for C6: startup subscribes to the bus event, and a bus
message naming `porch` shows that camera's stream for 60 seconds. -/
theorem claim_C6_bus_stream_witness :
    Event.busOn "skill.camera.showcam" ∈ (init_skill okEnv sFresh).trace ∧
    handle_stream okEnv sReady msgPorchShort =
      ⟨[.cecGetDevicePowerStatus 0, .cecPowerStatusToString 1,
        .cecSetActiveSource CEC_DEVICE_TYPE_RESERVED,
        .guiShowUrl (some "rtsp://cam.local/porch") (.timed 60),
        .sleepFor 58, .guiRemovePage "Camera.qml", .guiRelease],
       .ok sShown⟩ :=
  ⟨claim_C6_bus_stream.1 okEnv sFresh,
   claim_C6_bus_stream.2 okEnv sReady msgPorchShort "porch"
     "rtsp://cam.local/porch" 0 1 "on"
     rfl rfl rfl rfl rfl rfl rfl rfl rfl (by decide)⟩

/-- C7: outside the two spoken guards nothing is caught: whenever a
native CEC call or a GUI bridge call raises, the raising handler
performs no fallback and its result is exactly that error —
`GetDevicePowerStatus`, `SetActiveSource` and `show_url` inside
`show_stream`; `remove_page` and `StandbyDevices` inside
`handle_camera_completed`; `Open` inside `setup_cec`. -/
theorem claim_C7_errors_propagate :
    (∀ env s u idle i e, s.display_id = some i →
      env.GetDevicePowerStatus i = .error e →
      (show_stream env s u idle).res = .error e) ∧
    (∀ env s u idle i c st e, s.display_id = some i →
      env.GetDevicePowerStatus i = .ok c →
      env.PowerStatusToString c = .ok st →
      env.SetActiveSource CEC_DEVICE_TYPE_RESERVED = .error e →
      (show_stream env s u idle).res = .error e) ∧
    (∀ env s u idle i c st e, s.display_id = some i →
      env.GetDevicePowerStatus i = .ok c →
      env.PowerStatusToString c = .ok st →
      env.SetActiveSource CEC_DEVICE_TYPE_RESERVED = .ok true →
      env.show_url u idle = .error e →
      (show_stream env s u idle).res = .error e) ∧
    (∀ env s e, env.remove_page "Camera.qml" = .error e →
      (handle_camera_completed env s).res = .error e) ∧
    (∀ env s i e, env.remove_page "Camera.qml" = .ok () →
      env.release = .ok () → s.display_status = some "standby" →
      s.display_id = some i → env.StandbyDevices i = .error e →
      (handle_camera_completed env s).res = .error e) ∧
    (∀ env s a rest e, env.Create = .ok () →
      env.DetectAdapters = .ok (a :: rest) → env.Open a = .error e →
      (setup_cec env s).res = .error e) := by
  refine ⟨?_, ?_, ?_, ?_, ?_, ?_⟩
  · intro env s u idle i e hi hp
    simp [show_stream, run_bind, run_pure, M.bind, extCall, readAttr,
      hi, hp]
  · intro env s u idle i c st e hi hp hps ha
    simp [show_stream, run_bind, run_pure, M.bind, extCall, readAttr,
      hi, hp, hps, ha]
  · intro env s u idle i c st e hi hp hps ha hsu
    simp [show_stream, run_bind, run_pure, M.bind, extCall, readAttr,
      hi, hp, hps, ha, hsu]
  · intro env s e hrm
    simp [handle_camera_completed, run_bind, run_pure, M.bind, extCall,
      hrm]
  · intro env s i e hrm hrel hds hi hsb
    simp [handle_camera_completed, run_bind, run_pure, M.bind, extCall,
      readAttr, hrm, hrel, hds, hi, hsb]
  · intro env s a rest e hcr hda hop
    simp [setup_cec, run_bind, run_pure, M.bind, extCall, hcr, hda, hop]

/-- Witness for C7: each raising callee at a concrete input. -/
theorem claim_C7_errors_propagate_witness :
    (show_stream envPowerErr sReady none .indefinite).res = .error errE ∧
    (show_stream envActiveErr sReady none .indefinite).res = .error errE ∧
    (show_stream envShowUrlErr sReady none .indefinite).res = .error errE ∧
    (handle_camera_completed envRemoveErr sReady).res = .error errE ∧
    (handle_camera_completed envStandbyErr sStandby).res = .error errE ∧
    (setup_cec envOpenErr sFresh).res = .error errE :=
  ⟨claim_C7_errors_propagate.1 envPowerErr sReady none .indefinite 0 errE
     rfl rfl,
   claim_C7_errors_propagate.2.1 envActiveErr sReady none .indefinite 0 1
     "on" errE rfl rfl rfl rfl,
   claim_C7_errors_propagate.2.2.1 envShowUrlErr sReady none .indefinite 0
     1 "on" errE rfl rfl rfl rfl rfl,
   claim_C7_errors_propagate.2.2.2.1 envRemoveErr sReady errE rfl,
   claim_C7_errors_propagate.2.2.2.2.1 envStandbyErr sStandby 0 errE
     rfl rfl rfl rfl rfl,
   claim_C7_errors_propagate.2.2.2.2.2 envOpenErr sFresh "RPI" [] errE
     rfl rfl rfl⟩

/-- C8: the bus path is unguarded: a `skill.camera.showcam` message
whose utterance matches no configured camera still reaches
`show_stream` with a `None` URL — `GetDevicePowerStatus` and
`SetActiveSource` are issued and, `SetActiveSource` succeeding,
`show_url` is called with `None`; no dialog is spoken and the
display-availability flag is never consulted (here it is `False`). -/
theorem claim_C8_bus_unguarded (env : Env) (s : SkillState) (msg : Message)
    (name : String) (i c : Nat) (st : String)
    (hoff : s.display = some false) (hu : msg.utterance = some name)
    (hcg : camsGet s.cams name = none) (hi : s.display_id = some i)
    (hp : env.GetDevicePowerStatus i = .ok c)
    (hps : env.PowerStatusToString c = .ok st)
    (ha : env.SetActiveSource CEC_DEVICE_TYPE_RESERVED = .ok true)
    (hsu : env.show_url none (.timed 60) = .ok ())
    (hrm : env.remove_page "Camera.qml" = .ok ())
    (hrel : env.release = .ok ()) (hst : st ≠ "standby") :
    handle_stream env s msg =
      ⟨[.cecGetDevicePowerStatus i, .cecPowerStatusToString c,
        .cecSetActiveSource CEC_DEVICE_TYPE_RESERVED,
        .guiShowUrl none (.timed 60), .sleepFor 58,
        .guiRemovePage "Camera.qml", .guiRelease],
       .ok { s with display_status := some st }⟩ := by
  simp [handle_stream, show_stream, handle_camera_completed, run_bind,
    run_pure, M.bind, extCall, tell, readAttr, hu, hcg, hi, hp, hps, ha,
    hsu, hrm, hrel, hst]

/-- Witness for C8: an unknown camera name over the bus while the
display flag is `False`. -/
theorem claim_C8_bus_unguarded_witness :
    handle_stream okEnv sOff msgGarage =
      ⟨[.cecGetDevicePowerStatus 0, .cecPowerStatusToString 1,
        .cecSetActiveSource CEC_DEVICE_TYPE_RESERVED,
        .guiShowUrl none (.timed 60), .sleepFor 58,
        .guiRemovePage "Camera.qml", .guiRelease],
       .ok { sOff with display_status := some "on" }⟩ :=
  claim_C8_bus_unguarded okEnv sOff msgGarage "garage" 0 1 "on"
    rfl rfl rfl rfl rfl rfl rfl rfl rfl rfl (by decide)

/-- C9: `handle_camera_completed` always removes `Camera.qml` and
releases the GUI, and issues `StandbyDevices(display_id)` if and only if
the recorded `display_status` equals `"standby"`; and the recorded
status is exactly the power-status string fetched at the start of the
most recent `show_stream`. -/
theorem claim_C9_standby_iff :
    (∀ env s ds i b, env.remove_page "Camera.qml" = .ok () →
      env.release = .ok () → s.display_status = some ds →
      s.display_id = some i → env.StandbyDevices i = .ok b →
      (handle_camera_completed env s).trace =
        [.guiRemovePage "Camera.qml", .guiRelease]
          ++ (if ds = "standby" then [.cecStandbyDevices i] else []) ∧
      (Event.cecStandbyDevices i ∈ (handle_camera_completed env s).trace
        ↔ ds = "standby") ∧
      (handle_camera_completed env s).res = .ok s) ∧
    (∀ env s u i c st, s.display_id = some i →
      env.GetDevicePowerStatus i = .ok c →
      env.PowerStatusToString c = .ok st →
      env.SetActiveSource CEC_DEVICE_TYPE_RESERVED = .ok true →
      env.show_url u .indefinite = .ok () →
      (show_stream env s u .indefinite).res
        = .ok { s with display_status := some st }) := by
  constructor
  · intro env s ds i b hrm hrel hds hi hsb
    have ht : (handle_camera_completed env s).trace =
        [.guiRemovePage "Camera.qml", .guiRelease]
          ++ (if ds = "standby" then [.cecStandbyDevices i] else []) := by
      by_cases hst : ds = "standby" <;>
        simp [handle_camera_completed, run_bind, run_pure, M.bind, extCall,
          readAttr, hrm, hrel, hds, hi, hsb, hst]
    refine ⟨ht, ?_, ?_⟩
    · rw [ht]
      by_cases hst : ds = "standby" <;> simp [hst]
    · by_cases hst : ds = "standby" <;>
        simp [handle_camera_completed, run_bind, run_pure, M.bind, extCall,
          readAttr, hrm, hrel, hds, hi, hsb, hst]
  · intro env s u i c st hi hp hps ha hsu
    simp [show_stream, run_bind, run_pure, M.bind, extCall, readAttr,
      hi, hp, hps, ha, hsu]

/-- Witness for C9: a standby TV is sent to standby on completion, a TV
that was on is not; and `show_stream` records the fetched status. -/
theorem claim_C9_standby_iff_witness :
    ((handle_camera_completed okEnv sStandby).trace =
        [.guiRemovePage "Camera.qml", .guiRelease]
          ++ (if "standby" = "standby" then [.cecStandbyDevices 0] else []) ∧
      (Event.cecStandbyDevices 0 ∈
          (handle_camera_completed okEnv sStandby).trace
        ↔ "standby" = "standby") ∧
      (handle_camera_completed okEnv sStandby).res = .ok sStandby) ∧
    ((handle_camera_completed okEnv sShown).trace =
        [.guiRemovePage "Camera.qml", .guiRelease]
          ++ (if "on" = "standby" then [.cecStandbyDevices 0] else []) ∧
      (Event.cecStandbyDevices 0 ∈
          (handle_camera_completed okEnv sShown).trace
        ↔ "on" = "standby") ∧
      (handle_camera_completed okEnv sShown).res = .ok sShown) ∧
    (show_stream okEnv sReady none .indefinite).res = .ok sShown :=
  ⟨claim_C9_standby_iff.1 okEnv sStandby "standby" 0 true
     rfl rfl rfl rfl rfl,
   claim_C9_standby_iff.1 okEnv sShown "on" 0 true rfl rfl rfl rfl rfl,
   claim_C9_standby_iff.2 okEnv sReady none 0 1 "on" rfl rfl rfl rfl rfl⟩

end CameraSkill
